import Mathlib

/-
Verification of the resilient outbound HTTP request pipeline of the yarr
media-automation client packages.

The canonical implementation embedded here is `ServiceApi` in
`packages/radarr/src/api.ts` (rate limiting, retry orchestration, request
classification), together with the shared error taxonomy in
`packages/shared/src/errors/index.ts`.  The Overseerr client
(`packages/overseerr/src/api.ts`, second class in the file) is embedded
separately where its drift matters.

Modelling conventions:
- One HTTP attempt is a pure function of a `FetchOutcome`: what the
  environment (network + body parser) did for that attempt.  A logical call
  is driven by an oracle `Nat → FetchOutcome T` giving the outcome of the
  n-th attempt (attempts are numbered from 1, as the `for` loop in the
  source numbers them).
- JavaScript exceptions are values of `JsError`: either a `ServiceError`
  (the shared tagged error class) or a raw non-`ServiceError` exception
  identified by its `name` (for example the body-parse failure of
  `response.json()`).
- Timed waits are not executed; the retry loop records every delay it would
  pass to `setTimeout` as a `(failed attempt number, milliseconds)` pair.
- Clock values for the rate limiter are exact rationals; `Date.now()`
  values are supplied explicitly by the caller of each step.
-/

namespace Yarr

/-- The shared error codes, `packages/shared/src/errors/index.ts` lines 4-12. -/
inductive ErrorCode
  | NETWORK_ERROR
  | API_ERROR
  | RATE_LIMIT
  | VALIDATION_ERROR
  | AUTHENTICATION_ERROR
  | NOT_FOUND
  | TIMEOUT
  | UNKNOWN
deriving DecidableEq, Repr

/-- The context object attached to a `ServiceError`.  The source passes ad-hoc
object literals; each field below models one property that some `throw` site
sets, `none` standing for a property that is absent (or `null`: the only
consumer, `withRetry`, treats `null` and absent alike via `??`). -/
structure ErrCtx where
  retryAfter : Option String
  url : Option String
  endpoint : Option String
  status : Option Nat
  cause : Option String
deriving DecidableEq, Repr

/-- A context literal with no properties set. -/
def emptyCtx : ErrCtx := ⟨none, none, none, none, none⟩

/-- `ServiceError` of `packages/shared/src/errors/index.ts` lines 17-26:
a code, a message and an optional context. -/
structure ServiceError where
  code : ErrorCode
  message : String
  context : Option ErrCtx
deriving DecidableEq, Repr

/-- A JavaScript exception as seen by `withRetry`: either a `ServiceError`
or any other thrown value, identified by its `name` property. -/
inductive JsError
  | service (e : ServiceError)
  | raw (name : String)
deriving DecidableEq, Repr

/-- Outcome of reading a response body with `response.json()`:
either the declared shape or a parse failure (invalid JSON). -/
inductive JsonResult (T : Type)
  | ok (v : T)
  | parseError
deriving DecidableEq, Repr

/-- One received HTTP response: status, statusText, the `Retry-After`
header (`response.headers.get` returns `null` for an absent header,
modelled as `none`), and the result of parsing the body as JSON. -/
structure HttpResponse (T : Type) where
  status : Nat
  statusText : String
  retryAfterHeader : Option String
  body : JsonResult T
deriving DecidableEq, Repr

/-- What the environment did for one dispatched attempt:
- `response r`: `fetch` resolved with a response `r`;
- `abort`: the `timeoutMs` deadline fired first, `controller.abort()`
  cancelled the in-flight request and `fetch` rejected with an
  `AbortError`;
- `failure name`: `fetch` rejected with a transport-level error
  (DNS, connection refused, TLS) before any response. -/
inductive FetchOutcome (T : Type)
  | response (r : HttpResponse T)
  | abort
  | failure (name : String)
deriving DecidableEq, Repr

/-- `ServiceConfig` as consumed by `ServiceApi` (`packages/radarr/src/api.ts`):
base url, api key, and the optional `timeout`, `retryAttempts`,
`rateLimitPerSecond` overrides. -/
structure ServiceConfig where
  url : String
  apiKey : String
  timeout : Option Nat
  retryAttempts : Option Nat
  rateLimitPerSecond : Option ℚ
deriving DecidableEq, Repr

/-- `defaultTimeout` field of `ServiceApi` (line 17). -/
def defaultTimeout : Nat := 30000

/-- `defaultRetryAttempts` field of `ServiceApi` (line 18). -/
def defaultRetryAttempts : Nat := 3

/-- `defaultRateLimit` field of `ServiceApi` (line 19). -/
def defaultRateLimit : ℚ := 2

/-- `response.ok`: status in the inclusive range 200-299. -/
def responseOk (status : Nat) : Prop := 200 ≤ status ∧ status ≤ 299

instance (status : Nat) : Decidable (responseOk status) := by
  unfold responseOk; infer_instance

/-- `ServiceApi.request` (`packages/radarr/src/api.ts` lines 72-168) as a
classifier of one attempt's fetch outcome.  Query-string assembly and the
header object are elided (they do not affect classification).  Branches, in
source order:
- status 429 → `RATE_LIMIT` with the `Retry-After` header in the context
  (string interpolation of `null` prints "null");
- status 404 → `NOT_FOUND`, message carries the endpoint, context the url;
- status 401 → `AUTHENTICATION_ERROR`;
- any other non-ok status → `API_ERROR` with status and endpoint in the
  context (the parsed-or-defaulted error body is elided);
- ok status → the parsed body.  The source writes `return response.json()`
  WITHOUT `await` inside the `try` block, so when the body fails to parse
  the rejection adopts after the `try`/`catch` has been exited: the
  `catch` never runs and the raw `SyntaxError` escapes unclassified.
- `AbortError` rejection → `TIMEOUT`, message carries the configured
  timeout in ms, context the endpoint;
- any other rejection → `NETWORK_ERROR`. -/
def request (config : ServiceConfig) (endpoint : String) :
    FetchOutcome T → Except JsError T
  | FetchOutcome.response r =>
    if r.status = 429 then
      Except.error (JsError.service
        ⟨ErrorCode.RATE_LIMIT,
         "Rate limited. Please wait " ++ r.retryAfterHeader.getD "null" ++ " seconds",
         some { emptyCtx with retryAfter := r.retryAfterHeader }⟩)
    else if r.status = 404 then
      Except.error (JsError.service
        ⟨ErrorCode.NOT_FOUND,
         "Resource not found: " ++ endpoint,
         some { emptyCtx with url := some (config.url ++ "/api/v1" ++ endpoint) }⟩)
    else if r.status = 401 then
      Except.error (JsError.service
        ⟨ErrorCode.AUTHENTICATION_ERROR,
         "Invalid API key or unauthorized access",
         some { emptyCtx with endpoint := some endpoint }⟩)
    else if ¬ responseOk r.status then
      Except.error (JsError.service
        ⟨ErrorCode.API_ERROR,
         "API error: " ++ r.statusText,
         some { emptyCtx with status := some r.status, endpoint := some endpoint }⟩)
    else
      match r.body with
      | JsonResult.ok v => Except.ok v
      | JsonResult.parseError => Except.error (JsError.raw "SyntaxError")
  | FetchOutcome.abort =>
    Except.error (JsError.service
      ⟨ErrorCode.TIMEOUT,
       "Request timed out after " ++ toString (config.timeout.getD defaultTimeout) ++ "ms",
       some { emptyCtx with endpoint := some endpoint }⟩)
  | FetchOutcome.failure name =>
    Except.error (JsError.service
      ⟨ErrorCode.NETWORK_ERROR,
       "Failed to connect to service",
       some { emptyCtx with cause := some name }⟩)

/-- `error instanceof ServiceError && error.code === 'RATE_LIMIT'`
(withRetry, line 50). -/
def isRateLimitErr : JsError → Bool
  | JsError.service se => se.code = ErrorCode.RATE_LIMIT
  | JsError.raw _ => false

/-- `error instanceof ServiceError &&
['AUTHENTICATION_ERROR', 'VALIDATION_ERROR'].includes(error.code)`
(withRetry, line 55): the only errors `withRetry` refuses to retry. -/
def shortCircuits : JsError → Bool
  | JsError.service se =>
      se.code ∈ [ErrorCode.AUTHENTICATION_ERROR, ErrorCode.VALIDATION_ERROR]
  | JsError.raw _ => false

/-- `error.context` of a `ServiceError`, absent for a raw exception. -/
def errContext : JsError → Option ErrCtx
  | JsError.service se => se.context
  | JsError.raw _ => none

/-- JavaScript `parseInt(s)` (radix 10): skip leading whitespace, optional
sign, then the longest prefix of decimal digits; `none` models `NaN`
(no digits found). -/
def jsParseInt (s : String) : Option Int :=
  let cs := s.toList.dropWhile (fun c => c = ' ' ∨ c = '\t' ∨ c = '\n' ∨ c = '\r')
  let signAndRest : Int × List Char :=
    match cs with
    | '-' :: t => (-1, t)
    | '+' :: t => (1, t)
    | t => (1, t)
  let digits := signAndRest.2.takeWhile Char.isDigit
  if digits.isEmpty then none
  else some (signAndRest.1 * (digits.foldl (fun a c => a * 10 + (c.toNat - 48)) 0 : Nat))

/-- The effective sleep of `setTimeout(_, ms)`: `NaN` (modelled `none`) and
negative arguments sleep 0 ms. -/
def effDelay : Option Int → Int
  | none => 0
  | some n => max n 0

/-- The sleep of the `RATE_LIMIT` branch of `withRetry` (lines 50-53):
`parseInt(error.context?.retryAfter ?? '1') * 1000` milliseconds. -/
def rateLimitDelayMs (ctx : Option ErrCtx) : Int :=
  effDelay ((jsParseInt ((ctx.bind ErrCtx.retryAfter).getD "1")).map (fun n => n * 1000))

instance {E T : Type} [DecidableEq E] [DecidableEq T] : DecidableEq (Except E T) :=
  fun a b =>
    match a, b with
    | Except.ok x, Except.ok y =>
        if h : x = y then isTrue (by rw [h]) else isFalse (by intro hc; cases hc; exact h rfl)
    | Except.error x, Except.error y =>
        if h : x = y then isTrue (by rw [h]) else isFalse (by intro hc; cases hc; exact h rfl)
    | Except.ok _, Except.error _ => isFalse (by intro hc; cases hc)
    | Except.error _, Except.ok _ => isFalse (by intro hc; cases hc)

/-- Trace of one `withRetry` run: the final settlement (`Except.error none`
models `throw lastError` with `lastError` still `undefined`, which happens
only when the loop body never ran), the number of attempts made, and every
delay handed to `setTimeout`, tagged with the attempt number that failed
just before it. -/
structure RetryTrace (T : Type) where
  result : Except (Option JsError) T
  attemptsMade : Nat
  delays : List (Nat × Int)
deriving Repr

/-- The `for (let attempt = 1; attempt <= attempts; attempt++)` loop of
`ServiceApi.withRetry` (lines 44-65).  `remaining` is the number of loop
iterations still allowed (`attempts - attempt + 1` at entry); when it hits 0
the loop exits and the last error is thrown.  Branches per iteration:
- the operation succeeds → return its value;
- `RATE_LIMIT` error → sleep `parseInt(context.retryAfter ?? '1') * 1000`
  ms and `continue` (this sleep happens even on the last iteration);
- `AUTHENTICATION_ERROR` or `VALIDATION_ERROR` → rethrow immediately;
- any other error → if `attempt < attempts`, sleep
  `min(1000 * 2 ^ attempt, 5000)` ms; either way go around the loop. -/
def withRetryGo (op : Nat → Except JsError T) (attempts : Nat) :
    Nat → Nat → Option JsError → RetryTrace T
  | _, 0, lastError => ⟨Except.error lastError, 0, []⟩
  | attempt, remaining + 1, _ =>
    match op attempt with
    | Except.ok v => ⟨Except.ok v, 1, []⟩
    | Except.error e =>
      if isRateLimitErr e then
        let rest := withRetryGo op attempts (attempt + 1) remaining (some e)
        ⟨rest.result, rest.attemptsMade + 1,
         (attempt, rateLimitDelayMs (errContext e)) :: rest.delays⟩
      else if shortCircuits e then
        ⟨Except.error (some e), 1, []⟩
      else
        let rest := withRetryGo op attempts (attempt + 1) remaining (some e)
        if attempt < attempts then
          ⟨rest.result, rest.attemptsMade + 1,
           (attempt, (Int.ofNat (min (1000 * 2 ^ attempt) 5000))) :: rest.delays⟩
        else
          ⟨rest.result, rest.attemptsMade + 1, rest.delays⟩

/-- `ServiceApi.withRetry` (lines 40-67): run the loop from attempt 1 with
`attempts = config.retryAttempts ?? 3` iterations allowed. -/
def withRetry (op : Nat → Except JsError T) (retryAttempts : Option Nat) :
    RetryTrace T :=
  withRetryGo op (retryAttempts.getD defaultRetryAttempts) 1
    (retryAttempts.getD defaultRetryAttempts) none

/-- One logical call of the radarr client: every public operation is
`withRetry(() => this.request(endpoint, ...))`, so the retried operation is
`request` applied to the oracle outcome of the current attempt. -/
def executeCall (config : ServiceConfig) (endpoint : String)
    (oracle : Nat → FetchOutcome T) : RetryTrace T :=
  withRetry (fun attempt => request config endpoint (oracle attempt))
    config.retryAttempts

/-- The error thrown by a run, `none` for a success. -/
def errPart : Except JsError T → Option JsError
  | Except.error e => some e
  | Except.ok _ => none

/-- The backoff-delay schedule of a run whose every attempt fails with a
retryable, non-rate-limited error: one `min(1000 * 2 ^ attempt, 5000)` ms
sleep after each failed attempt except the last allowed one. -/
def backoffDelays (attempts : Nat) : Nat → Nat → List (Nat × Int)
  | _, 0 => []
  | attempt, remaining + 1 =>
    if attempt < attempts then
      (attempt, Int.ofNat (min (1000 * 2 ^ attempt) 5000)) ::
        backoffDelays attempts (attempt + 1) remaining
    else
      backoffDelays attempts (attempt + 1) remaining

/-- The code of the `ServiceError` a call settled with, `none` for a success
or for a raw (unclassified) exception. -/
def thrownCode : Except JsError T → Option ErrorCode
  | Except.error (JsError.service se) => some se.code
  | Except.error (JsError.raw _) => none
  | Except.ok _ => none

/-- `RateLimiterState`: the single piece of mutable per-client state,
`private lastRequest = 0` (line 15). -/
structure RateLimiterState where
  lastRequest : ℚ
deriving DecidableEq, Repr

/-- `this.minInterval = 1000 / (config.rateLimitPerSecond ?? 2)`
(constructor, line 22).  Clock arithmetic is modelled over the exact
rationals. -/
def minIntervalOf (config : ServiceConfig) : ℚ :=
  1000 / (config.rateLimitPerSecond.getD defaultRateLimit)

/-- `ServiceApi.rateLimit` (lines 28-35) as one sequential step: `now` is
`Date.now()` at entry; if less than `minInterval` has elapsed since
`lastRequest` the caller sleeps the deficit, then `lastRequest` is set to
`Date.now()` (which, the sleep being the only elapsed time, is the release
instant) and the call returns.  The pair is (state after the call, release
time). -/
def rateLimitStep (minInterval : ℚ) (st : RateLimiterState) (now : ℚ) :
    RateLimiterState × ℚ :=
  let elapsed := now - st.lastRequest
  let release := if elapsed < minInterval then now + (minInterval - elapsed) else now
  (⟨release⟩, release)

/-- `OverseerrConfig` as consumed by the retrofitted `OverseerrApi`
(`packages/overseerr/src/api.ts`, class at lines 223-720). -/
structure OverseerrConfig where
  url : String
  apiKey : String
  timeout : Option Nat
  retryAttempts : Option Nat
  rateLimitPerSecond : Option ℚ
deriving DecidableEq, Repr

/-- `OverseerrApi.request` (lines 272-330).  Unlike the radarr client it has
no 429 branch: the `!response.ok` chain checks only 401 and 404 before the
catch-all `API_ERROR` (no context objects are attached).  The `ok` branch
has the same un-awaited `return response.json()`; the catch rethrows
anything that is not an `AbortError` unwrapped. -/
def overseerrRequest (config : OverseerrConfig) (endpoint : String) :
    FetchOutcome T → Except JsError T
  | FetchOutcome.response r =>
    if ¬ responseOk r.status then
      if r.status = 401 then
        Except.error (JsError.service
          ⟨ErrorCode.AUTHENTICATION_ERROR, "Invalid API key", none⟩)
      else if r.status = 404 then
        Except.error (JsError.service
          ⟨ErrorCode.NOT_FOUND, "Resource not found: " ++ endpoint, none⟩)
      else
        Except.error (JsError.service
          ⟨ErrorCode.API_ERROR, "API error: " ++ r.statusText, none⟩)
    else
      match r.body with
      | JsonResult.ok v => Except.ok v
      | JsonResult.parseError => Except.error (JsError.raw "SyntaxError")
  | FetchOutcome.abort =>
    Except.error (JsError.service
      ⟨ErrorCode.TIMEOUT,
       "Request timed out after " ++ toString (config.timeout.getD defaultTimeout) ++ "ms",
       some { emptyCtx with endpoint := some endpoint }⟩)
  | FetchOutcome.failure name => Except.error (JsError.raw name)

/-- `OverseerrApi.withRetry` (lines 249-267): present in the source but
never invoked by any public operation.  It differs from the radarr loop: it
retries every error with the capped backoff, with no rate-limit and no
short-circuit branch.  Embedded for completeness; no operation below uses
it, mirroring the source. -/
def overseerrWithRetryGo (op : Nat → Except JsError T) (attempts : Nat) :
    Nat → Nat → Option JsError → RetryTrace T
  | _, 0, lastError => ⟨Except.error lastError, 0, []⟩
  | attempt, remaining + 1, _ =>
    match op attempt with
    | Except.ok v => ⟨Except.ok v, 1, []⟩
    | Except.error e =>
      let rest := overseerrWithRetryGo op attempts (attempt + 1) remaining (some e)
      if attempt < attempts then
        ⟨rest.result, rest.attemptsMade + 1,
         (attempt, Int.ofNat (min (1000 * 2 ^ attempt) 5000)) :: rest.delays⟩
      else
        ⟨rest.result, rest.attemptsMade + 1, rest.delays⟩

/-- `OverseerrApi.search` (lines 333-335): `return this.request(...)` — a
direct call with no `withRetry` wrapper, so the logical call is one single
attempt whatever `config.retryAttempts` holds.  `encodeURIComponent` is
elided. -/
def overseerrSearchTrace (config : OverseerrConfig) (query : String) (page : Nat)
    (oracle : Nat → FetchOutcome T) : RetryTrace T :=
  { result := (overseerrRequest config
      ("/search?query=" ++ query ++ "&page=" ++ toString page) (oracle 1)).mapError some,
    attemptsMade := 1,
    delays := [] }

/-- `OverseerrApi.createRequest` (the POST `/request` operation): likewise a
direct `request` call, one attempt per logical call. -/
def overseerrCreateRequestTrace (config : OverseerrConfig)
    (oracle : Nat → FetchOutcome T) : RetryTrace T :=
  { result := (overseerrRequest config "/request" (oracle 1)).mapError some,
    attemptsMade := 1,
    delays := [] }

/-- Fixture: radarr config with `retryAttempts = 3` set explicitly. -/
def cfg13 : ServiceConfig := ⟨"http://radarr:7878", "api-key", none, some 3, none⟩

/-- Fixture: radarr config with every optional setting left to its default. -/
def cfgDefault : ServiceConfig := ⟨"http://radarr:7878", "api-key", none, none, none⟩

/-- Fixture: radarr config with `retryAttempts = 5`. -/
def cfg5 : ServiceConfig := ⟨"http://radarr:7878", "api-key", none, some 5, none⟩

/-- Fixture: radarr config with `timeout = 500` ms. -/
def cfgT500 : ServiceConfig := ⟨"http://radarr:7878", "api-key", some 500, none, none⟩

/-- Fixture: config with `rateLimitPerSecond = 2`. -/
def cfgRate2 : ServiceConfig := ⟨"http://radarr:7878", "api-key", none, none, some 2⟩

/-- Fixture: overseerr config with `retryAttempts = 7`. -/
def ovCfg : OverseerrConfig := ⟨"http://overseerr:5055", "api-key", none, some 7, none⟩

/-- Fixture: a 503 response. -/
def resp503 : HttpResponse Unit := ⟨503, "Service Unavailable", none, JsonResult.parseError⟩

/-- Fixture: a 404 response. -/
def resp404 : HttpResponse Unit := ⟨404, "Not Found", none, JsonResult.parseError⟩

/-- Fixture: a 400 response. -/
def resp400 : HttpResponse Unit := ⟨400, "Bad Request", none, JsonResult.parseError⟩

/-- Fixture: a 401 response. -/
def resp401 : HttpResponse Unit := ⟨401, "Unauthorized", none, JsonResult.parseError⟩

/-- Fixture: a 429 response with header `Retry-After: 5`. -/
def resp429h5 : HttpResponse Unit := ⟨429, "Too Many Requests", some "5", JsonResult.parseError⟩

/-- Fixture: a 200 response whose body is not valid JSON. -/
def resp200bad : HttpResponse Unit := ⟨200, "OK", none, JsonResult.parseError⟩

section ClassificationLemmas

variable {T : Type}

/-- A 429 response is classified `RATE_LIMIT` with the `Retry-After` header
in the context. -/
lemma request_429 (config : ServiceConfig) (endpoint : String) (r : HttpResponse T)
    (h : r.status = 429) :
    request config endpoint (FetchOutcome.response r)
      = Except.error (JsError.service
          ⟨ErrorCode.RATE_LIMIT,
           "Rate limited. Please wait " ++ r.retryAfterHeader.getD "null" ++ " seconds",
           some { emptyCtx with retryAfter := r.retryAfterHeader }⟩) := by
  simp [request, h]

/-- A 404 response is classified `NOT_FOUND`, the message carrying the
endpoint and the context the full url. -/
lemma request_404 (config : ServiceConfig) (endpoint : String) (r : HttpResponse T)
    (h : r.status = 404) :
    request config endpoint (FetchOutcome.response r)
      = Except.error (JsError.service
          ⟨ErrorCode.NOT_FOUND,
           "Resource not found: " ++ endpoint,
           some { emptyCtx with url := some (config.url ++ "/api/v1" ++ endpoint) }⟩) := by
  simp [request, h]

/-- A 401 response is classified `AUTHENTICATION_ERROR`. -/
lemma request_401 (config : ServiceConfig) (endpoint : String) (r : HttpResponse T)
    (h : r.status = 401) :
    request config endpoint (FetchOutcome.response r)
      = Except.error (JsError.service
          ⟨ErrorCode.AUTHENTICATION_ERROR,
           "Invalid API key or unauthorized access",
           some { emptyCtx with endpoint := some endpoint }⟩) := by
  simp [request, h]

/-- Any other non-ok response is classified `API_ERROR` with status and
endpoint in the context. -/
lemma request_apiError (config : ServiceConfig) (endpoint : String) (r : HttpResponse T)
    (h429 : r.status ≠ 429) (h404 : r.status ≠ 404) (h401 : r.status ≠ 401)
    (hok : ¬ responseOk r.status) :
    request config endpoint (FetchOutcome.response r)
      = Except.error (JsError.service
          ⟨ErrorCode.API_ERROR,
           "API error: " ++ r.statusText,
           some { emptyCtx with status := some r.status, endpoint := some endpoint }⟩) := by
  simp [request, h429, h404, h401, hok]

/-- `shortCircuits` on a `ServiceError` looks only at the code. -/
lemma shortCircuits_service (c : ErrorCode) (m : String) (ctx : Option ErrCtx) :
    shortCircuits (JsError.service ⟨c, m, ctx⟩)
      = (c ∈ [ErrorCode.AUTHENTICATION_ERROR, ErrorCode.VALIDATION_ERROR] : Bool) := rfl

/-- Codes other than `AUTHENTICATION_ERROR`/`VALIDATION_ERROR` are retried. -/
lemma shortCircuits_eq_false (c : ErrorCode) (m : String) (ctx : Option ErrCtx)
    (h1 : c ≠ ErrorCode.AUTHENTICATION_ERROR) (h2 : c ≠ ErrorCode.VALIDATION_ERROR) :
    shortCircuits (JsError.service ⟨c, m, ctx⟩) = false := by
  simp [shortCircuits, h1, h2]

/-- `isRateLimitErr` on a `ServiceError` looks only at the code. -/
lemma isRateLimitErr_service (c : ErrorCode) (m : String) (ctx : Option ErrCtx) :
    isRateLimitErr (JsError.service ⟨c, m, ctx⟩) = (c = ErrorCode.RATE_LIMIT : Bool) := rfl

/-- Codes other than `RATE_LIMIT` take the backoff path. -/
lemma isRateLimitErr_eq_false (c : ErrorCode) (m : String) (ctx : Option ErrCtx)
    (h : c ≠ ErrorCode.RATE_LIMIT) :
    isRateLimitErr (JsError.service ⟨c, m, ctx⟩) = false := by
  simp [isRateLimitErr, h]

end ClassificationLemmas

section RetryLemmas

variable {T : Type}

/-- A run whose every attempt fails with a retryable, non-rate-limited error
makes exactly `remaining` attempts: one per allowed loop iteration. -/
lemma withRetryGo_allFail_attempts (op : Nat → Except JsError T) (attempts : Nat)
    (hop : ∀ n, ∃ e, op n = Except.error e ∧
      isRateLimitErr e = false ∧ shortCircuits e = false) :
    ∀ remaining attempt lastError,
      (withRetryGo op attempts attempt remaining lastError).attemptsMade = remaining := by
  intro remaining
  induction remaining with
  | zero => intro attempt lastError; simp [withRetryGo]
  | succ n ih =>
    intro attempt lastError
    obtain ⟨e, he, hRL, hSC⟩ := hop attempt
    simp only [withRetryGo, he, hRL, hSC, Bool.false_eq_true, if_false]
    by_cases h : attempt < attempts <;> simp [h, ih]

/-- Such a run settles on the error of its last attempt. -/
lemma withRetryGo_allFail_result (op : Nat → Except JsError T) (attempts : Nat)
    (hop : ∀ n, ∃ e, op n = Except.error e ∧
      isRateLimitErr e = false ∧ shortCircuits e = false) :
    ∀ remaining attempt lastError,
      (withRetryGo op attempts attempt (remaining + 1) lastError).result
        = Except.error (errPart (op (attempt + remaining))) := by
  intro remaining
  induction remaining with
  | zero =>
    intro attempt lastError
    obtain ⟨e, he, hRL, hSC⟩ := hop attempt
    simp only [withRetryGo, he, hRL, hSC, Bool.false_eq_true, if_false]
    by_cases h : attempt < attempts <;> simp [h, withRetryGo, he, errPart]
  | succ n ih =>
    intro attempt lastError
    obtain ⟨e, he, hRL, hSC⟩ := hop attempt
    rw [withRetryGo, he]
    simp only [hRL, hSC, Bool.false_eq_true, if_false]
    have harith : attempt + 1 + n = attempt + (n + 1) := by omega
    by_cases h : attempt < attempts <;>
      simp [h, ih (attempt + 1) (some e), harith]

/-- Such a run sleeps exactly the capped exponential-backoff schedule. -/
lemma withRetryGo_allFail_delays (op : Nat → Except JsError T) (attempts : Nat)
    (hop : ∀ n, ∃ e, op n = Except.error e ∧
      isRateLimitErr e = false ∧ shortCircuits e = false) :
    ∀ remaining attempt lastError,
      (withRetryGo op attempts attempt remaining lastError).delays
        = backoffDelays attempts attempt remaining := by
  intro remaining
  induction remaining with
  | zero => intro attempt lastError; simp [withRetryGo, backoffDelays]
  | succ n ih =>
    intro attempt lastError
    obtain ⟨e, he, hRL, hSC⟩ := hop attempt
    simp only [withRetryGo, he, hRL, hSC, Bool.false_eq_true, if_false]
    by_cases h : attempt < attempts <;> simp [h, ih, backoffDelays]

/-- Every delay in a `withRetry` trace is either the rate-limit sleep of a
`RATE_LIMIT` failure of that attempt, or the capped exponential backoff of a
retryable failure at an attempt below the budget. -/
lemma withRetryGo_delays_mem (op : Nat → Except JsError T) (attempts : Nat)
    (k : Nat) (d : Int) :
    ∀ remaining attempt lastError,
      (k, d) ∈ (withRetryGo op attempts attempt remaining lastError).delays →
      ∃ e, op k = Except.error e ∧
        ((isRateLimitErr e = true ∧ d = rateLimitDelayMs (errContext e)) ∨
         (isRateLimitErr e = false ∧ shortCircuits e = false ∧ k < attempts ∧
          d = Int.ofNat (min (1000 * 2 ^ k) 5000))) := by
  intro remaining
  induction remaining with
  | zero => intro attempt lastError hmem; simp [withRetryGo] at hmem
  | succ n ih =>
    intro attempt lastError hmem
    rcases hOp : op attempt with e | v
    case ok => simp [withRetryGo, hOp] at hmem
    case error =>
    rcases hRL : isRateLimitErr e with _ | _
    · rcases hSC : shortCircuits e with _ | _
      · by_cases h : attempt < attempts
        · simp only [withRetryGo, hOp, hRL, hSC, Bool.false_eq_true, if_false,
            if_pos h, List.mem_cons] at hmem
          rcases hmem with heq | hmem
          · rw [Prod.mk.injEq] at heq
            obtain ⟨hk, hd⟩ := heq
            refine ⟨e, ?_, Or.inr ⟨hRL, hSC, ?_, ?_⟩⟩
            · rw [hk]; exact hOp
            · omega
            · rw [hd, hk]
          · exact ih (attempt + 1) (some e) hmem
        · simp only [withRetryGo, hOp, hRL, hSC, Bool.false_eq_true, if_false,
            if_neg h] at hmem
          exact ih (attempt + 1) (some e) hmem
      · simp [withRetryGo, hOp, hRL, hSC] at hmem
    · simp only [withRetryGo, hOp, hRL, if_true, List.mem_cons] at hmem
      rcases hmem with heq | hmem
      · rw [Prod.mk.injEq] at heq
        obtain ⟨hk, hd⟩ := heq
        refine ⟨e, ?_, Or.inl ⟨hRL, ?_⟩⟩
        · rw [hk]; exact hOp
        · exact hd
      · exact ih (attempt + 1) (some e) hmem

end RetryLemmas

section ClaimTheorems

variable {T : Type}

/-- Claim C1, counterexample: with `retryAttempts = 3` and a backend that
answers 503 on every attempt, the radarr client makes exactly 3 attempts —
the `for` loop runs `attempt = 1 .. retryAttempts` — not the 4
(`maxRetries + 1`) the claim asserts. -/
theorem claim1_counterexample :
    (executeCall cfg13 "/movie" (fun _ => FetchOutcome.response resp503)).attemptsMade = 3 ∧
    ¬ (executeCall cfg13 "/movie"
        (fun _ => FetchOutcome.response resp503)).attemptsMade = 4 := by
  decide

/-- Claim C1 (amended): for every configuration with `retryAttempts = 3`, if
every attempt of a logical call receives a 503 response, the client makes
exactly 3 attempts total (total attempts = maxRetries, not maxRetries + 1),
with inter-attempt delays of 2000 ms and 4000 ms, and raises the last
classified error. -/
theorem claim1_theorem (config : ServiceConfig) (endpoint : String)
    (oracle : Nat → FetchOutcome T) (rs : Nat → HttpResponse T)
    (hcfg : config.retryAttempts = some 3)
    (horacle : ∀ n, oracle n = FetchOutcome.response (rs n))
    (hstatus : ∀ n, (rs n).status = 503) :
    (executeCall config endpoint oracle).attemptsMade = 3 ∧
    (executeCall config endpoint oracle).delays = [(1, 2000), (2, 4000)] ∧
    (executeCall config endpoint oracle).result
      = Except.error (some (JsError.service
          ⟨ErrorCode.API_ERROR, "API error: " ++ (rs 3).statusText,
           some { emptyCtx with status := some 503, endpoint := some endpoint }⟩)) := by
  have hop : ∀ n, request config endpoint (oracle n)
      = Except.error (JsError.service
          ⟨ErrorCode.API_ERROR, "API error: " ++ (rs n).statusText,
           some { emptyCtx with status := some 503, endpoint := some endpoint }⟩) := by
    intro n
    rw [horacle n]
    have h := request_apiError config endpoint (rs n)
      (by rw [hstatus n]; decide) (by rw [hstatus n]; decide) (by rw [hstatus n]; decide)
      (by rw [hstatus n]; decide)
    rw [h, hstatus n]
  have hfail : ∀ n, ∃ e, request config endpoint (oracle n) = Except.error e ∧
      isRateLimitErr e = false ∧ shortCircuits e = false := by
    intro n
    exact ⟨_, hop n,
      isRateLimitErr_eq_false _ _ _ (by decide),
      shortCircuits_eq_false _ _ _ (by decide) (by decide)⟩
  have hcall : executeCall config endpoint oracle
      = withRetryGo (fun attempt => request config endpoint (oracle attempt)) 3 1 3 none := by
    simp [executeCall, withRetry, hcfg]
  refine ⟨?_, ?_, ?_⟩
  · rw [hcall, withRetryGo_allFail_attempts _ 3 hfail 3 1 none]
  · rw [hcall, withRetryGo_allFail_delays _ 3 hfail 3 1 none]
    decide
  · rw [hcall]
    have h := withRetryGo_allFail_result
      (fun attempt => request config endpoint (oracle attempt)) 3 hfail 2 1 none
    rw [h, hop 3]
    rfl

/-- Claim C1, witness: the amended claim evaluated at the always-503 run. -/
theorem claim1_witness :
    (executeCall cfg13 "/movie" (fun _ => FetchOutcome.response resp503)).attemptsMade = 3 ∧
    (executeCall cfg13 "/movie" (fun _ => FetchOutcome.response resp503)).delays
      = [(1, 2000), (2, 4000)] ∧
    (executeCall cfg13 "/movie" (fun _ => FetchOutcome.response resp503)).result
      = Except.error (some (JsError.service
          ⟨ErrorCode.API_ERROR, "API error: " ++ resp503.statusText,
           some { emptyCtx with status := some 503, endpoint := some "/movie" }⟩)) :=
  claim1_theorem cfg13 "/movie" (fun _ => FetchOutcome.response resp503)
    (fun _ => resp503) rfl (fun _ => rfl) (fun _ => rfl)

/-- Claim C2, counterexample: a backend that always answers 404 makes the
default-configured client take 3 attempts before rejecting, not 1:
`NOT_FOUND` is absent from `withRetry`'s non-retryable list
(`['AUTHENTICATION_ERROR', 'VALIDATION_ERROR']`). -/
theorem claim2_counterexample :
    (executeCall cfgDefault "/movie/5"
      (fun _ => FetchOutcome.response resp404)).attemptsMade = 3 ∧
    ¬ (executeCall cfgDefault "/movie/5"
        (fun _ => FetchOutcome.response resp404)).attemptsMade = 1 := by
  decide

/-- Claim C2 (amended): a 404 response is classified `NOT_FOUND` with the
requested endpoint in the message, but it IS retried like any generic
failure: with every attempt answering 404 the call makes `retryAttempts`
attempts (3 by default) and only then rejects with the `NOT_FOUND` error. -/
theorem claim2_theorem (config : ServiceConfig) (endpoint : String)
    (oracle : Nat → FetchOutcome T) (rs : Nat → HttpResponse T)
    (horacle : ∀ n, oracle n = FetchOutcome.response (rs n))
    (hstatus : ∀ n, (rs n).status = 404)
    (hA : 1 ≤ config.retryAttempts.getD defaultRetryAttempts) :
    (executeCall config endpoint oracle).attemptsMade
      = config.retryAttempts.getD defaultRetryAttempts ∧
    (executeCall config endpoint oracle).result
      = Except.error (some (JsError.service
          ⟨ErrorCode.NOT_FOUND, "Resource not found: " ++ endpoint,
           some { emptyCtx with
                  url := some (config.url ++ "/api/v1" ++ endpoint) }⟩)) := by
  have hop : ∀ n, request config endpoint (oracle n)
      = Except.error (JsError.service
          ⟨ErrorCode.NOT_FOUND, "Resource not found: " ++ endpoint,
           some { emptyCtx with
                  url := some (config.url ++ "/api/v1" ++ endpoint) }⟩) := by
    intro n
    rw [horacle n]
    exact request_404 config endpoint (rs n) (hstatus n)
  have hfail : ∀ n, ∃ e, request config endpoint (oracle n) = Except.error e ∧
      isRateLimitErr e = false ∧ shortCircuits e = false := by
    intro n
    exact ⟨_, hop n,
      isRateLimitErr_eq_false _ _ _ (by decide),
      shortCircuits_eq_false _ _ _ (by decide) (by decide)⟩
  obtain ⟨m, hm⟩ : ∃ m, config.retryAttempts.getD defaultRetryAttempts = m + 1 :=
    ⟨config.retryAttempts.getD defaultRetryAttempts - 1, by omega⟩
  have hcall : executeCall config endpoint oracle
      = withRetryGo (fun attempt => request config endpoint (oracle attempt))
          (m + 1) 1 (m + 1) none := by
    simp [executeCall, withRetry, hm]
  constructor
  · rw [hcall, withRetryGo_allFail_attempts _ (m + 1) hfail (m + 1) 1 none, hm]
  · rw [hcall]
    have h := withRetryGo_allFail_result
      (fun attempt => request config endpoint (oracle attempt)) (m + 1) hfail m 1 none
    rw [h, hop (1 + m)]
    rfl

/-- Claim C2, witness: the amended claim evaluated at the always-404 run
with the default configuration. -/
theorem claim2_witness :
    (executeCall cfgDefault "/movie/5"
      (fun _ => FetchOutcome.response resp404)).attemptsMade
      = cfgDefault.retryAttempts.getD defaultRetryAttempts ∧
    (executeCall cfgDefault "/movie/5"
      (fun _ => FetchOutcome.response resp404)).result
      = Except.error (some (JsError.service
          ⟨ErrorCode.NOT_FOUND, "Resource not found: " ++ "/movie/5",
           some { emptyCtx with
                  url := some (cfgDefault.url ++ "/api/v1" ++ "/movie/5") }⟩)) :=
  claim2_theorem cfgDefault "/movie/5" (fun _ => FetchOutcome.response resp404)
    (fun _ => resp404) (fun _ => rfl) (fun _ => rfl) (by decide)

/-- Claim C3, counterexample: a received 400 response is classified
`API_ERROR`, not the `Validation` (`VALIDATION_ERROR`) variant the claim
asserts; a 503 response gets the very same `API_ERROR` code, there being no
distinct `ServerError` classification in the code at all. -/
theorem claim3_counterexample :
    thrownCode (request cfgDefault "/movie" (FetchOutcome.response resp400))
      = some ErrorCode.API_ERROR ∧
    ¬ thrownCode (request cfgDefault "/movie" (FetchOutcome.response resp400))
      = some ErrorCode.VALIDATION_ERROR ∧
    thrownCode (request cfgDefault "/movie" (FetchOutcome.response resp503))
      = some ErrorCode.API_ERROR := by
  decide

/-- Claim C3 (amended): every received 4xx status other than 401/404/429 and
every 5xx status is classified `API_ERROR` — one shared catch-all, not
separate `Validation`/`ServerError` variants — carrying the status code and
endpoint in its context, and the retry policy treats it as retryable. -/
theorem claim3_theorem (config : ServiceConfig) (endpoint : String)
    (r : HttpResponse T)
    (hr : (400 ≤ r.status ∧ r.status ≤ 499 ∧
           r.status ≠ 401 ∧ r.status ≠ 404 ∧ r.status ≠ 429) ∨
          (500 ≤ r.status ∧ r.status ≤ 599)) :
    request config endpoint (FetchOutcome.response r)
      = Except.error (JsError.service
          ⟨ErrorCode.API_ERROR, "API error: " ++ r.statusText,
           some { emptyCtx with status := some r.status, endpoint := some endpoint }⟩) ∧
    shortCircuits (JsError.service
          ⟨ErrorCode.API_ERROR, "API error: " ++ r.statusText,
           some { emptyCtx with status := some r.status, endpoint := some endpoint }⟩)
      = false ∧
    isRateLimitErr (JsError.service
          ⟨ErrorCode.API_ERROR, "API error: " ++ r.statusText,
           some { emptyCtx with status := some r.status, endpoint := some endpoint }⟩)
      = false := by
  refine ⟨?_, shortCircuits_eq_false _ _ _ (by decide) (by decide),
    isRateLimitErr_eq_false _ _ _ (by decide)⟩
  apply request_apiError config endpoint r
  · rcases hr with ⟨_, _, _, _, h⟩ | ⟨h, _⟩ <;> omega
  · rcases hr with ⟨_, _, _, h, _⟩ | ⟨h, _⟩ <;> omega
  · rcases hr with ⟨_, _, h, _, _⟩ | ⟨h, _⟩ <;> omega
  · unfold responseOk
    rcases hr with ⟨h, _⟩ | ⟨h, _⟩ <;> omega

/-- Claim C3, witness: the amended claim evaluated at a 400 response. -/
theorem claim3_witness :
    request cfgDefault "/movie" (FetchOutcome.response resp400)
      = Except.error (JsError.service
          ⟨ErrorCode.API_ERROR, "API error: " ++ resp400.statusText,
           some { emptyCtx with
                  status := some resp400.status,
                  endpoint := some "/movie" }⟩) ∧
    shortCircuits (JsError.service
          ⟨ErrorCode.API_ERROR, "API error: " ++ resp400.statusText,
           some { emptyCtx with
                  status := some resp400.status,
                  endpoint := some "/movie" }⟩) = false ∧
    isRateLimitErr (JsError.service
          ⟨ErrorCode.API_ERROR, "API error: " ++ resp400.statusText,
           some { emptyCtx with
                  status := some resp400.status,
                  endpoint := some "/movie" }⟩) = false :=
  claim3_theorem cfgDefault "/movie" resp400 (Or.inl (by decide))

/-- Claim C4: for every `requestsPerSecond = r`, two consecutive
`rateLimit()` calls on the same client instance (the second invoked at or
after the first's release) are released no less than `1000 / r` ms apart,
and `lastRequest` is set to the current time (the release instant) before
each return.  Sequential-caller model with an exact rational clock. -/
theorem claim4_theorem (config : ServiceConfig) (r last now1 now2 : ℚ)
    (hcfg : config.rateLimitPerSecond = some r) (hr : 0 < r)
    (hseq : (rateLimitStep (minIntervalOf config) ⟨last⟩ now1).2 ≤ now2) :
    1000 / r
      ≤ (rateLimitStep (minIntervalOf config)
            (rateLimitStep (minIntervalOf config) ⟨last⟩ now1).1 now2).2
        - (rateLimitStep (minIntervalOf config) ⟨last⟩ now1).2 ∧
    (rateLimitStep (minIntervalOf config)
        (rateLimitStep (minIntervalOf config) ⟨last⟩ now1).1 now2).1.lastRequest
      = (rateLimitStep (minIntervalOf config)
            (rateLimitStep (minIntervalOf config) ⟨last⟩ now1).1 now2).2 := by
  have hmi : minIntervalOf config = 1000 / r := by
    simp [minIntervalOf, hcfg]
  refine ⟨?_, rfl⟩
  rw [hmi] at hseq ⊢
  set t1 := (rateLimitStep (1000 / r) ⟨last⟩ now1).2 with ht1
  have hfst : (rateLimitStep (1000 / r) ⟨last⟩ now1).1 = ⟨t1⟩ := rfl
  rw [hfst]
  show 1000 / r ≤ (rateLimitStep (1000 / r) ⟨t1⟩ now2).2 - t1
  unfold rateLimitStep
  by_cases h : now2 - t1 < 1000 / r
  · simp only [h, if_pos]
    ring_nf
    linarith
  · simp only [h, if_neg, not_false_iff]
    linarith [not_lt.mp h]

/-- Claim C4, witness: `r = 2`, first call at t=0 with `lastRequest = 0`
releases at 500; a second call at t=600 releases at 1000 — 500 ms apart. -/
theorem claim4_witness :
    1000 / 2
      ≤ (rateLimitStep (minIntervalOf cfgRate2)
            (rateLimitStep (minIntervalOf cfgRate2) ⟨0⟩ 0).1 600).2
        - (rateLimitStep (minIntervalOf cfgRate2) ⟨0⟩ 0).2 ∧
    (rateLimitStep (minIntervalOf cfgRate2)
        (rateLimitStep (minIntervalOf cfgRate2) ⟨0⟩ 0).1 600).1.lastRequest
      = (rateLimitStep (minIntervalOf cfgRate2)
            (rateLimitStep (minIntervalOf cfgRate2) ⟨0⟩ 0).1 600).2 :=
  claim4_theorem cfgRate2 2 0 0 600 rfl (by norm_num)
    (by norm_num [rateLimitStep, minIntervalOf, cfgRate2])

/-- Claim C5: a failed attempt whose response was a 429 sleeps exactly
`retryAfterSeconds * 1000` ms before the loop continues, where
`retryAfterSeconds` is parsed from the `Retry-After` header when one was
sent and is 1 second when the header was absent; the exponential backoff
branch is not applied to such an attempt. -/
theorem claim5_theorem (config : ServiceConfig) (endpoint : String)
    (oracle : Nat → FetchOutcome T) (rs : HttpResponse T) (k : Nat) (d : Int)
    (hmem : (k, d) ∈ (executeCall config endpoint oracle).delays)
    (hk : oracle k = FetchOutcome.response rs)
    (hstatus : rs.status = 429) :
    (∀ s n, rs.retryAfterHeader = some s → jsParseInt s = some n → 0 ≤ n →
      d = n * 1000) ∧
    (rs.retryAfterHeader = none → d = 1000) := by
  have hcall : executeCall config endpoint oracle
      = withRetryGo (fun attempt => request config endpoint (oracle attempt))
          (config.retryAttempts.getD defaultRetryAttempts) 1
          (config.retryAttempts.getD defaultRetryAttempts) none := rfl
  rw [hcall] at hmem
  obtain ⟨e, hOp, hdis⟩ := withRetryGo_delays_mem _ _ k d _ 1 none hmem
  rw [hk, request_429 config endpoint rs hstatus] at hOp
  have he : e = JsError.service
      ⟨ErrorCode.RATE_LIMIT,
       "Rate limited. Please wait " ++ rs.retryAfterHeader.getD "null" ++ " seconds",
       some { emptyCtx with retryAfter := rs.retryAfterHeader }⟩ := by
    injection hOp with h
    exact h.symm
  subst he
  rcases hdis with ⟨_, hd⟩ | ⟨hfalse, _⟩
  · constructor
    · intro s n hs hparse hn
      rw [hd]
      simp only [errContext, rateLimitDelayMs, hs, Option.bind, Option.getD, hparse,
        Option.map, effDelay]
      omega
    · intro hnone
      rw [hd]
      simp only [errContext, rateLimitDelayMs, hnone]
      decide
  · simp [isRateLimitErr] at hfalse

/-- Claim C5, witness: the 429 run with `Retry-After: 5` sleeps exactly
5000 ms after its first failed attempt. -/
theorem claim5_witness : (5000 : Int) = 5 * 1000 :=
  (claim5_theorem cfgDefault "/movie" (fun _ => FetchOutcome.response resp429h5)
    resp429h5 1 5000 (by decide) rfl rfl).1 "5" 5 rfl (by decide) (by decide)

/-- Claim C6: a logical call whose first attempt receives a 401 response is
classified `AUTHENTICATION_ERROR` and makes exactly one attempt, for every
configured retry budget that admits a first attempt at all. -/
theorem claim6_theorem (config : ServiceConfig) (endpoint : String)
    (oracle : Nat → FetchOutcome T) (rs : HttpResponse T)
    (h1 : oracle 1 = FetchOutcome.response rs) (hstatus : rs.status = 401)
    (hA : 1 ≤ config.retryAttempts.getD defaultRetryAttempts) :
    (executeCall config endpoint oracle).attemptsMade = 1 ∧
    (executeCall config endpoint oracle).result
      = Except.error (some (JsError.service
          ⟨ErrorCode.AUTHENTICATION_ERROR, "Invalid API key or unauthorized access",
           some { emptyCtx with endpoint := some endpoint }⟩)) := by
  obtain ⟨m, hm⟩ : ∃ m, config.retryAttempts.getD defaultRetryAttempts = m + 1 :=
    ⟨config.retryAttempts.getD defaultRetryAttempts - 1, by omega⟩
  have hop1 : request config endpoint (oracle 1)
      = Except.error (JsError.service
          ⟨ErrorCode.AUTHENTICATION_ERROR, "Invalid API key or unauthorized access",
           some { emptyCtx with endpoint := some endpoint }⟩) := by
    rw [h1]
    exact request_401 config endpoint rs hstatus
  have hcall : executeCall config endpoint oracle
      = withRetryGo (fun attempt => request config endpoint (oracle attempt))
          (m + 1) 1 (m + 1) none := by
    simp [executeCall, withRetry, hm]
  rw [hcall, withRetryGo, hop1]
  constructor <;> simp [isRateLimitErr, shortCircuits]

/-- Claim C6, witness: the 401 run with `retryAttempts = 5` makes exactly
one attempt and rejects with the `AUTHENTICATION_ERROR`. -/
theorem claim6_witness :
    (executeCall cfg5 "/system/status"
      (fun _ => FetchOutcome.response resp401)).attemptsMade = 1 ∧
    (executeCall cfg5 "/system/status"
      (fun _ => FetchOutcome.response resp401)).result
      = Except.error (some (JsError.service
          ⟨ErrorCode.AUTHENTICATION_ERROR, "Invalid API key or unauthorized access",
           some { emptyCtx with endpoint := some "/system/status" }⟩)) :=
  claim6_theorem cfg5 "/system/status" (fun _ => FetchOutcome.response resp401)
    resp401 rfl rfl (by decide)

/-- Claim C7: every backoff sleep the retry loop takes after an attempt that
failed with a retryable, non-rate-limited error is exactly
`min(1000 * 2 ^ attempt, 5000)` ms, `attempt` being the 1-based number of
the attempt that just failed, and it only happens for attempts strictly
below the budget — no delay after the final allowed attempt. -/
theorem claim7_theorem (config : ServiceConfig) (endpoint : String)
    (oracle : Nat → FetchOutcome T) (k : Nat) (d : Int) (e : JsError)
    (hmem : (k, d) ∈ (executeCall config endpoint oracle).delays)
    (he : request config endpoint (oracle k) = Except.error e)
    (hRL : isRateLimitErr e = false) :
    d = Int.ofNat (min (1000 * 2 ^ k) 5000) ∧
    k < config.retryAttempts.getD defaultRetryAttempts := by
  have hcall : executeCall config endpoint oracle
      = withRetryGo (fun attempt => request config endpoint (oracle attempt))
          (config.retryAttempts.getD defaultRetryAttempts) 1
          (config.retryAttempts.getD defaultRetryAttempts) none := rfl
  rw [hcall] at hmem
  obtain ⟨e2, hOp, hdis⟩ := withRetryGo_delays_mem _ _ k d _ 1 none hmem
  rw [he] at hOp
  have he2 : e2 = e := by
    injection hOp with h
    exact h.symm
  subst he2
  rcases hdis with ⟨htrue, _⟩ | ⟨_, _, hk, hd⟩
  · rw [htrue] at hRL
    exact absurd hRL (by decide)
  · exact ⟨hd, hk⟩

/-- Claim C7, witness: in the always-503 run, the sleep after the first
failed attempt is `min(1000 * 2 ^ 1, 5000) = 2000` ms, and attempt 1 is
below the budget of 3. -/
theorem claim7_witness :
    (2000 : Int) = Int.ofNat (min (1000 * 2 ^ 1) 5000) ∧
    1 < cfg13.retryAttempts.getD defaultRetryAttempts :=
  claim7_theorem cfg13 "/movie" (fun _ => FetchOutcome.response resp503) 1 2000
    (JsError.service
      ⟨ErrorCode.API_ERROR, "API error: " ++ resp503.statusText,
       some { emptyCtx with status := some resp503.status, endpoint := some "/movie" }⟩)
    (by decide) (by decide) (by decide)

/-- Claim C8: an attempt whose timeout deadline fires before a response
(modelled by the `abort` outcome: `controller.abort()` cancels the in-flight
request and `fetch` rejects with an `AbortError`) is classified `TIMEOUT`,
its message carrying the configured timeout in ms and its context the
endpoint; a call all of whose attempts time out rejects with that error. -/
theorem claim8_theorem (config : ServiceConfig) (endpoint : String)
    (oracle : Nat → FetchOutcome T)
    (habort : ∀ n, oracle n = FetchOutcome.abort)
    (hA : 1 ≤ config.retryAttempts.getD defaultRetryAttempts) :
    request config endpoint (oracle 1)
      = Except.error (JsError.service
          ⟨ErrorCode.TIMEOUT,
           "Request timed out after " ++ toString (config.timeout.getD defaultTimeout)
             ++ "ms",
           some { emptyCtx with endpoint := some endpoint }⟩) ∧
    (executeCall config endpoint oracle).result
      = Except.error (some (JsError.service
          ⟨ErrorCode.TIMEOUT,
           "Request timed out after " ++ toString (config.timeout.getD defaultTimeout)
             ++ "ms",
           some { emptyCtx with endpoint := some endpoint }⟩)) := by
  have hop : ∀ n, request config endpoint (oracle n)
      = Except.error (JsError.service
          ⟨ErrorCode.TIMEOUT,
           "Request timed out after " ++ toString (config.timeout.getD defaultTimeout)
             ++ "ms",
           some { emptyCtx with endpoint := some endpoint }⟩) := by
    intro n
    rw [habort n]
    rfl
  refine ⟨hop 1, ?_⟩
  have hfail : ∀ n, ∃ e, request config endpoint (oracle n) = Except.error e ∧
      isRateLimitErr e = false ∧ shortCircuits e = false := by
    intro n
    exact ⟨_, hop n,
      isRateLimitErr_eq_false _ _ _ (by decide),
      shortCircuits_eq_false _ _ _ (by decide) (by decide)⟩
  obtain ⟨m, hm⟩ : ∃ m, config.retryAttempts.getD defaultRetryAttempts = m + 1 :=
    ⟨config.retryAttempts.getD defaultRetryAttempts - 1, by omega⟩
  have hcall : executeCall config endpoint oracle
      = withRetryGo (fun attempt => request config endpoint (oracle attempt))
          (m + 1) 1 (m + 1) none := by
    simp [executeCall, withRetry, hm]
  rw [hcall]
  have h := withRetryGo_allFail_result
    (fun attempt => request config endpoint (oracle attempt)) (m + 1) hfail m 1 none
  rw [h, hop (1 + m)]
  rfl

/-- Claim C8, witness: with `timeout = 500` ms and every attempt timing out,
the attempt error and the call's final rejection both carry
"Request timed out after 500ms" and the endpoint. -/
theorem claim8_witness :
    request cfgT500 "/health" ((fun _ => FetchOutcome.abort) (1 : Nat) : FetchOutcome Unit)
      = Except.error (JsError.service
          ⟨ErrorCode.TIMEOUT,
           "Request timed out after " ++ toString (cfgT500.timeout.getD defaultTimeout)
             ++ "ms",
           some { emptyCtx with endpoint := some "/health" }⟩) ∧
    (executeCall cfgT500 "/health" (fun _ => (FetchOutcome.abort : FetchOutcome Unit))).result
      = Except.error (some (JsError.service
          ⟨ErrorCode.TIMEOUT,
           "Request timed out after " ++ toString (cfgT500.timeout.getD defaultTimeout)
             ++ "ms",
           some { emptyCtx with endpoint := some "/health" }⟩)) :=
  claim8_theorem cfgT500 "/health" (fun _ => FetchOutcome.abort)
    (fun _ => rfl) (by decide)

/-- Claim C9: the code evaluated at the failing input.  A 200 response whose
body is not valid JSON escapes `request` as the raw, unclassified
`SyntaxError` — the un-awaited `return response.json()` rejection bypasses
the `catch` that was written to turn exactly such failures into
`NETWORK_ERROR` — so `thrownCode` sees no `ServiceError` at all. -/
theorem claim9_eval :
    request cfgDefault "/movie" (FetchOutcome.response resp200bad)
      = Except.error (JsError.raw "SyntaxError") ∧
    thrownCode (request cfgDefault "/movie" (FetchOutcome.response resp200bad))
      = none ∧
    ¬ thrownCode (request cfgDefault "/movie" (FetchOutcome.response resp200bad))
      = some ErrorCode.NETWORK_ERROR := by
  decide

/-- Claim C10: Overseerr public operations (here `search` and
`createRequest`) call `request` directly — `withRetry` is never applied —
so a logical call is exactly one attempt for every configured
`retryAttempts`; and `request` has no 429 branch, so a 429 response falls
through to the generic `API_ERROR` classification, not `RATE_LIMIT`. -/
theorem claim10_theorem (config : OverseerrConfig) (q : String) (page : Nat)
    (oracle : Nat → FetchOutcome T) (rs : HttpResponse T)
    (h1 : oracle 1 = FetchOutcome.response rs) (hstatus : rs.status = 429) :
    (overseerrSearchTrace config q page oracle).attemptsMade = 1 ∧
    (overseerrCreateRequestTrace config oracle).attemptsMade = 1 ∧
    (overseerrSearchTrace config q page oracle).result
      = Except.error (some (JsError.service
          ⟨ErrorCode.API_ERROR, "API error: " ++ rs.statusText, none⟩)) ∧
    ¬ ErrorCode.API_ERROR = ErrorCode.RATE_LIMIT := by
  refine ⟨rfl, rfl, ?_, by decide⟩
  simp only [overseerrSearchTrace, h1]
  have h : overseerrRequest config ("/search?query=" ++ q ++ "&page=" ++ toString page)
      (FetchOutcome.response rs)
      = Except.error (JsError.service
          ⟨ErrorCode.API_ERROR, "API error: " ++ rs.statusText, none⟩) := by
    simp [overseerrRequest, hstatus, responseOk]
  rw [h]
  rfl

/-- Claim C10, witness: with `retryAttempts = 7` configured, an Overseerr
search answered 429 still makes exactly one attempt and rejects with the
generic `API_ERROR`. -/
theorem claim10_witness :
    (overseerrSearchTrace ovCfg "dune" 1
      (fun _ => FetchOutcome.response resp429h5)).attemptsMade = 1 ∧
    (overseerrCreateRequestTrace ovCfg
      (fun _ => FetchOutcome.response resp429h5)).attemptsMade = 1 ∧
    (overseerrSearchTrace ovCfg "dune" 1
      (fun _ => FetchOutcome.response resp429h5)).result
      = Except.error (some (JsError.service
          ⟨ErrorCode.API_ERROR, "API error: " ++ resp429h5.statusText, none⟩)) ∧
    ¬ ErrorCode.API_ERROR = ErrorCode.RATE_LIMIT :=
  claim10_theorem ovCfg "dune" 1 (fun _ => FetchOutcome.response resp429h5)
    resp429h5 rfl rfl

end ClaimTheorems

end Yarr
